import Mathlib

/-!
Shallow embedding of the LinkedIn profile scraper (Chrome extension
`background.js` / `popup.js` and the Express backend profile
controller/model), together with theorems settling the specification
claims about it.

Conventions of the embedding:
* JS strings are Lean `String`s; a JS falsy string test (`!s`) is `s = ""`.
* The DOM is an oracle: a `Document` maps the exact CSS selector strings
  that appear in the source to elements; an `Elem` carries the data the
  extractor reads from a DOM node (`textContent`, `src`, and scoped
  `querySelector`).
* Timers/delays (`wait`, backoff and settle delays) and wall-clock
  timestamps (`extractedAt`, `processingStartTime`) have no observable
  effect on the claimed state and are not modelled.
* Asynchronous chrome APIs are modelled by environments describing the
  outcome of each awaited call (tab id allocated, page-load result,
  extraction-script result, backend save result).
-/

namespace Scraper

/-- JS `a.includes(b)`: `b` occurs as a contiguous substring of `a`. -/
def strIncludes (a b : String) : Bool :=
  a.data.tails.any (fun t => b.data.isPrefixOf t)

/-- JS `s.trim()`: strip leading and trailing whitespace. -/
def jsTrim (s : String) : String :=
  String.mk (((s.data.dropWhile Char.isWhitespace).reverse.dropWhile Char.isWhitespace).reverse)

/-- JS `s.toLowerCase()`. -/
def jsToLower (s : String) : String :=
  String.mk (s.data.map Char.toLower)

/-- JS `s.startsWith(prefix)`. -/
def strStartsWith (a b : String) : Bool :=
  b.data.isPrefixOf a.data

/-- Leading run of ASCII digits of a character list, with the remainder. -/
def takeDigits : List Char → List Char × List Char
  | [] => ([], [])
  | c :: cs =>
    if c.isDigit then
      let (d, r) := takeDigits cs
      (c :: d, r)
    else ([], c :: cs)

/-- After an initial digit run, the regex tail `(?:,\d+)*` of
`/(\d+(?:,\d+)*)/`: greedily consume comma-separated digit groups,
returning the digits (commas dropped) and the rest.  `fuel` bounds the
recursion; `fuel = length of the input` always suffices since every
recursive step consumes at least two characters. -/
def numTailF : Nat → List Char → List Char × List Char
  | 0, rest => ([], rest)
  | fuel + 1, ',' :: c :: cs =>
    if c.isDigit then
      let (d, r) := takeDigits (c :: cs)
      let (d2, r2) := numTailF fuel r
      (d ++ d2, r2)
    else ([], ',' :: c :: cs)
  | _ + 1, rest => ([], rest)

/-- Digit characters to the natural number they denote (JS `parseInt`
on a digits-only string). -/
def digitsToNat (l : List Char) : Nat :=
  l.foldl (fun n c => 10 * n + (c.toNat - 48)) 0

/-- The first (leftmost) match of the JS regex `/(\d+(?:,\d+)*)/` in the
character list, parsed with commas stripped, as JS parseInt does after the comma replace.
`none` when the text holds no digit. -/
def scanNumber : List Char → Option Nat
  | [] => none
  | c :: cs =>
    if c.isDigit then
      let (d, r) := takeDigits (c :: cs)
      let (d2, _) := numTailF r.length r
      some (digitsToNat (d ++ d2))
    else scanNumber cs

/-- Leftmost match of `/(\d+(?:,\d+)*)\+?\s*KEYWORD/` (applied by the
fallback count method of the extractor to already-lowercased text), returning
the parsed group. Greedy matching is exact here: the continuation
`\+?\s*KEYWORD` can never start with a digit or a comma, so the greedy
group never needs to backtrack. -/
def scanNumberBefore (keyword : String) : List Char → Option Nat
  | [] => none
  | c :: cs =>
    if c.isDigit then
      let (d, r) := takeDigits (c :: cs)
      let (d2, r2) := numTailF r.length r
      let r3 := match r2 with
        | '+' :: t => t
        | t => t
      let r4 := r3.dropWhile Char.isWhitespace
      if keyword.data.isPrefixOf r4 then some (digitsToNat (d ++ d2))
      else scanNumberBefore keyword cs
    else scanNumberBefore keyword cs

/-- A DOM element as the extractor sees it: its text content, its `src`
attribute (for `<img>`), and element-scoped `querySelector`. -/
inductive Elem where
  | mk (textContent : String) (src : String) (sub : String → Option Elem)

def Elem.textContent : Elem → String
  | .mk t _ _ => t

def Elem.src : Elem → String
  | .mk _ s _ => s

def Elem.sub : Elem → String → Option Elem
  | .mk _ _ q => q

/-- An element with only text content. -/
def textElem (t : String) : Elem := .mk t "" (fun _ => none)

/-- A loaded page: `querySelector` / `querySelectorAll` keyed by the
exact selector strings used in `background.js`. -/
structure Document where
  querySelector : String → Option Elem
  querySelectorAll : String → List Elem

/-- One `{title, company, order}` entry of `profileData.experience`. -/
structure ExperienceEntry where
  title : String
  company : String
  order : Nat
deriving Repr, DecidableEq

/-- The record built by `extractLinkedInProfileAdvanced`
(`background.js` lines 389-405), with the defaults it is initialised
with. `url` is stamped on later by `processSingleUrl`; `extractionError`
is only set by the catch path. The `extractedAt` timestamp is not
modelled. -/
structure ProfileData where
  name : String := ""
  about : String := ""
  bio : String := ""
  location : String := ""
  followerCount : Nat := 0
  connectionCount : Nat := 0
  bioLine : String := ""
  headline : String := ""
  industry : String := ""
  profilePicture : String := ""
  experience : List ExperienceEntry := []
  education : List String := []
  skills : List String := []
  extractionStatus : String := "success"
  url : String := ""
  extractionError : Option String := none
deriving Repr, DecidableEq

/-! ### The extractor (`extractLinkedInProfileAdvanced`, `background.js` 385-743) -/

def nameSelectors : List String :=
  ["h1.text-heading-xlarge.inline.t-24.v-align-middle.break-words",
   "h1.text-heading-xlarge",
   ".pv-text-details__left-panel h1",
   ".ph5 h1",
   "h1[aria-label]"]

def headlineSelectors : List String :=
  [".text-body-medium.break-words",
   ".pv-text-details__left-panel .text-body-medium",
   ".ph5 .text-body-medium"]

def locationSelectors : List String :=
  [".text-body-small.inline.t-black--light.break-words",
   ".pv-text-details__left-panel .text-body-small"]

def locationKeywords : List String :=
  ["connection", "follower", "view", "profile", "contact", "mutual"]

def connectionSelectors : List String :=
  ["a[href*=\"/search/results/people/?network=%5B%22F%22%5D\"] .t-black--light .t-bold",
   "a[href*=\"search/results/people\"] .t-black--light",
   ".pv-top-card--list-bullet li:first-child .t-black--light",
   ".pv-top-card__connections .t-black--light",
   ".pv-top-card--list .pv-top-card--list-bullet li .t-black--light"]

def followerSelectors : List String :=
  ["a[href*=\"/followers/\"] .t-black--light .t-bold",
   "a[href*=\"followers\"] .t-black--light",
   ".pv-top-card--list-bullet li:last-child .t-black--light",
   ".pv-top-card__followers .t-black--light"]

def profileImgSelectors : List String :=
  [".pv-top-card__photo img",
   ".profile-photo-edit__preview img",
   ".pv-top-card-profile-picture img"]

def aboutSelectors : List String :=
  ["#about ~ * .inline-show-more-text",
   ".pv-about-section .pv-shared-text-with-see-more",
   ".pv-about__summary-text .inline-show-more-text"]

def experienceTitleSelectors : List String :=
  [".t-bold", ".mr1.t-bold", ".pvs-entity__caption-wrapper .t-bold"]

def experienceCompanySelectors : List String :=
  [".t-14.t-normal", ".pvs-entity__caption-wrapper .t-14"]

/-- First selector whose element has non-empty trimmed text (the name
loop, lines 416-423): take that trimmed text. -/
def firstNonEmptyText (doc : Document) : List String → Option String
  | [] => none
  | sel :: rest =>
    match doc.querySelector sel with
    | some e =>
      if jsTrim e.textContent ≠ "" then some (jsTrim e.textContent)
      else firstNonEmptyText doc rest
    | none => firstNonEmptyText doc rest

def extractName (doc : Document) (p : ProfileData) : ProfileData :=
  match firstNonEmptyText doc nameSelectors with
  | some t => { p with name := t }
  | none => p

/-- The headline loop (lines 432-441): non-empty trimmed text whose raw
text does not contain a bullet. -/
def firstHeadlineText (doc : Document) : List String → Option String
  | [] => none
  | sel :: rest =>
    match doc.querySelector sel with
    | some e =>
      if jsTrim e.textContent ≠ "" ∧ strIncludes e.textContent "•" = false then
        some (jsTrim e.textContent)
      else firstHeadlineText doc rest
    | none => firstHeadlineText doc rest

def extractHeadline (doc : Document) (p : ProfileData) : ProfileData :=
  match firstHeadlineText doc headlineSelectors with
  | some t => { p with bioLine := t, headline := t, bio := t }
  | none => p

/-- The `isLocation` plausibility filter (lines 456-461). -/
def isLocationText (text : String) : Bool :=
  decide (text ≠ "") && !(strIncludes text "•") && !(text.data.any Char.isDigit) &&
  decide (2 < text.length) && decide (text.length < 100) &&
  !(locationKeywords.any (fun k => strIncludes (jsToLower text) k))

def firstLocationInElems : List Elem → Option String
  | [] => none
  | e :: rest =>
    let text := jsTrim e.textContent
    if isLocationText text then some text else firstLocationInElems rest

def firstLocation (doc : Document) : List String → Option String
  | [] => none
  | sel :: rest =>
    match firstLocationInElems (doc.querySelectorAll sel) with
    | some t => some t
    | none => firstLocation doc rest

def extractLocation (doc : Document) (p : ProfileData) : ProfileData :=
  match firstLocation doc locationSelectors with
  | some t => { p with location := t }
  | none => p

/-- Count method 1 (lines 498-539): first selector whose element has
lowercased trimmed text contains the keyword and whose text contains a
number.  The loop continues past selectors whose element exists but
fails the keyword or the number match. -/
def countFromSelectors (doc : Document) (keyword : String) : List String → Option Nat
  | [] => none
  | sel :: rest =>
    match doc.querySelector sel with
    | some e =>
      let text := jsTrim e.textContent
      if strIncludes (jsToLower text) keyword then
        match scanNumber text.data with
        | some n => some n
        | none => countFromSelectors doc keyword rest
      else countFromSelectors doc keyword rest
    | none => countFromSelectors doc keyword rest

/-- Count method 2 (lines 542-569): one pass over the fallback elements,
filling whichever of the two counts is still zero. -/
def m2Scan (elems : List Elem) (conn foll : Nat) : Nat × Nat :=
  elems.foldl (fun cf e =>
    let text := jsToLower (jsTrim e.textContent)
    let c :=
      if strIncludes text "connection" = true ∧ strIncludes text "mutual" = false ∧
          strIncludes text "view" = false then
        match scanNumberBefore "connection" text.data with
        | some n => if cf.1 = 0 then n else cf.1
        | none => cf.1
      else cf.1
    let f :=
      if strIncludes text "follower" = true ∧ strIncludes text "following" = false then
        match scanNumberBefore "follower" text.data with
        | some n => if cf.2 = 0 then n else cf.2
        | none => cf.2
      else cf.2
    (c, f)) (conn, foll)

/-- Count method 3 (lines 572-608): first link whose lowercased text
contains the keyword and parses to a number below the inline cap. -/
def countFromLinks (keyword : String) (cap : Nat) : List Elem → Option Nat
  | [] => none
  | l :: rest =>
    let text := jsToLower (jsTrim l.textContent)
    if strIncludes text keyword then
      match scanNumber text.data with
      | some n => if n < cap then some n else countFromLinks keyword cap rest
      | none => countFromLinks keyword cap rest
    else countFromLinks keyword cap rest

def extractCounts (doc : Document) (p : ProfileData) : ProfileData :=
  let conn := match countFromSelectors doc "connection" connectionSelectors with
    | some n => n
    | none => p.connectionCount
  let foll := match countFromSelectors doc "follower" followerSelectors with
    | some n => n
    | none => p.followerCount
  let cf :=
    if conn = 0 ∧ foll = 0 then
      m2Scan (doc.querySelectorAll ".t-black--light, .t-normal, .pv-top-card--list-bullet li")
        conn foll
    else (conn, foll)
  let conn2 :=
    if cf.1 = 0 then
      match countFromLinks "connection" 100000
          (doc.querySelectorAll "a[href*=\"search/results/people\"], a[href*=\"network\"]") with
      | some n => n
      | none => cf.1
    else cf.1
  let foll2 :=
    if cf.2 = 0 then
      match countFromLinks "follower" 10000000 (doc.querySelectorAll "a[href*=\"followers\"]") with
      | some n => n
      | none => cf.2
    else cf.2
  { p with connectionCount := conn2, followerCount := foll2 }

/-- The final sanity check on the counts (lines 610-619). -/
def sanitizeCounts (p : ProfileData) : ProfileData :=
  let p1 := if p.connectionCount > 100000 then { p with connectionCount := 0 } else p
  if p1.followerCount > 50000000 then { p1 with followerCount := 0 } else p1

/-- The profile picture loop (lines 628-635). -/
def firstPicture (doc : Document) : List String → Option String
  | [] => none
  | sel :: rest =>
    match doc.querySelector sel with
    | some img =>
      if img.src ≠ "" ∧ strIncludes img.src "data:" = false ∧ strIncludes img.src "http" = true
      then some img.src
      else firstPicture doc rest
    | none => firstPicture doc rest

def extractPicture (doc : Document) (p : ProfileData) : ProfileData :=
  match firstPicture doc profileImgSelectors with
  | some s => { p with profilePicture := s }
  | none => p

/-- The about-section loop (lines 644-651): first element whose trimmed
text is strictly longer than the already-extracted bio line. -/
def firstAbout (doc : Document) (bioLineLen : Nat) : List String → Option String
  | [] => none
  | sel :: rest =>
    match doc.querySelector sel with
    | some e =>
      if bioLineLen < (jsTrim e.textContent).length then some (jsTrim e.textContent)
      else firstAbout doc bioLineLen rest
    | none => firstAbout doc bioLineLen rest

def extractAbout (doc : Document) (p : ProfileData) : ProfileData :=
  match firstAbout doc p.bioLine.length aboutSelectors with
  | some t => { p with about := t }
  | none => p

/-- First scoped sub-element hit of a selector list (the title loop of an
experience entry: the first existing element is taken even when its text
is empty). -/
def firstSubElem (e : Elem) : List String → Option Elem
  | [] => none
  | sel :: rest =>
    match e.sub sel with
    | some x => some x
    | none => firstSubElem e rest

/-- The company loop of an experience entry: skips elements whose raw text
contains the already-extracted title (note: every string contains `""`,
so with an empty title no company is ever taken, as in JS). -/
def firstCompany (e : Elem) (title : String) : List String → Option String
  | [] => none
  | sel :: rest =>
    match e.sub sel with
    | some ce =>
      if strIncludes ce.textContent title = false then some (jsTrim ce.textContent)
      else firstCompany e title rest
    | none => firstCompany e title rest

/-- Experience extraction (lines 654-693): first 5 entries, kept when a
title or a company was found, `order` = original index. -/
def extractExperience (doc : Document) (p : ProfileData) : ProfileData :=
  let elems := doc.querySelectorAll
    "#experience ~ * .pvs-list__item, [data-section=\"experience\"] .pvs-list__item"
  if elems.length = 0 then p
  else
    let entries := ((elems.take 5).enum).filterMap (fun ie =>
      let e := ie.2
      let title := match firstSubElem e experienceTitleSelectors with
        | some te => jsTrim te.textContent
        | none => ""
      let company := match firstCompany e title experienceCompanySelectors with
        | some c => c
        | none => ""
      if title ≠ "" ∨ company ≠ "" then some (⟨title, company, ie.1⟩ : ExperienceEntry)
      else none)
    { p with experience := entries }

/-- JS `[...new Set(xs)]`: deduplicate keeping first occurrences. -/
def jsSetDedupAux : List String → List String → List String
  | _, [] => []
  | seen, s :: rest =>
    if s ∈ seen then jsSetDedupAux seen rest
    else s :: jsSetDedupAux (s :: seen) rest

def jsSetDedup (l : List String) : List String := jsSetDedupAux [] l

/-- Skills extraction (lines 696-710): first 15 skill elements with
plausible text length, deduplicated. -/
def extractSkills (doc : Document) (p : ProfileData) : ProfileData :=
  let elems := doc.querySelectorAll
    "#skills ~ * .pvs-list__item .t-bold, [data-section=\"skills\"] .t-bold"
  if elems.length = 0 then p
  else
    let skills := (elems.take 15).filterMap (fun e =>
      let t := jsTrim e.textContent
      if t ≠ "" ∧ t.length < 50 ∧ 1 < t.length then some t else none)
    { p with skills := jsSetDedup skills }

/-- The status determination at the end of the extractor body
(lines 712-717): `extractionStatus` was initialised to `"success"`. -/
def finalizeStatus (p : ProfileData) : ProfileData :=
  if p.name = "" then { p with extractionStatus := "failed" }
  else if p.bioLine = "" ∧ p.location = "" then { p with extractionStatus := "partial" }
  else p

/-- The `try` body of the extractor up to (not including) the final
status determination, in source order. -/
def extractFields (doc : Document) : ProfileData :=
  let p0 : ProfileData := {}
  let p1 := extractName doc p0
  let p2 := extractHeadline doc p1
  let p3 := extractLocation doc p2
  let p4 := extractCounts doc p3
  let p5 := sanitizeCounts p4
  let p6 := extractPicture doc p5
  let p7 := extractAbout doc p6
  let p8 := extractExperience doc p7
  extractSkills doc p8

/-- The whole `try` body of the extractor. -/
def extractAll (doc : Document) : ProfileData :=
  finalizeStatus (extractFields doc)

/-- A page evaluation: either the extractor body runs over the loaded
document, or some step of the body throws with a message (the `catch`
argument). -/
inductive PageOutcome where
  | ok (doc : Document)
  | err (msg : String)

/-- Function `extractLinkedInProfileAdvanced`: the `try` body, or on exception the
sentinel record of lines 735-741 (its unlisted fields are `undefined` in
JS, embedded as the falsy defaults). -/
def extractLinkedInProfileAdvanced : PageOutcome → ProfileData
  | .ok doc => extractAll doc
  | .err msg =>
    { name := "Extraction Failed"
      bioLine := "Could not extract profile data"
      extractionStatus := "failed"
      extractionError := some msg }

/-! ### Batch orchestration (`background.js` 100-343, 816-859, 1046-1052) -/

/-- Constant `CONFIG.MAX_RETRIES`. -/
def MAX_RETRIES : Nat := 2

/-- The mutable `extensionState` of the service worker
(`background.js` 15-23).  `activeTabs` is a JS `Set` of tab ids,
embedded as a duplicate-free list; `processingStartTime` is a wall-clock
timestamp and is not modelled. -/
structure ExtState where
  isProcessing : Bool := false
  currentBatch : List String := []
  processedCount : Nat := 0
  successCount : Nat := 0
  errorCount : Nat := 0
  activeTabs : List Nat := []
deriving Repr, DecidableEq

/-- JS `Set.add`. -/
def setAdd (l : List Nat) (id : Nat) : List Nat :=
  if id ∈ l then l else l ++ [id]

/-- JS `Set.delete` (also covers `closeTab`, which deletes the id from
the tracked set whether or not `chrome.tabs.remove` succeeded). -/
def setDelete (l : List Nat) (id : Nat) : List Nat :=
  l.filter (fun x => x ≠ id)

/-- Result of the injected extraction script for one attempt:
`extractProfileFromTab` either rejects (injection failure, tab gone, no
data returned) or yields the record the page function returned. -/
inductive ExtractOutcome where
  | threw (msg : String)
  | returned (p : ProfileData)

/-- Result of `saveProfileToBackend` for one attempt: `saved` when the
response was ok with a success flag (carrying the new record id),
otherwise `notSaved` with the server-provided message. -/
inductive SaveOutcome where
  | saved (profileId : Nat)
  | notSaved (errMsg : String)

/-- Environment of one attempt of `processSingleUrl`: the id
`chrome.tabs.create` allocates, whether `waitForTabComplete` rejected
(with which message), and the extraction / save outcomes reached when
the earlier steps succeed. -/
structure AttemptEnv where
  tabId : Nat
  loadFailure : Option String
  extract : ExtractOutcome
  save : SaveOutcome

/-- The value `processSingleUrl` resolves with. -/
structure UrlResult where
  success : Bool
  isDuplicate : Bool := false
  error : Option String := none
  profile : Option ProfileData := none
  profileId : Option Nat := none
deriving Repr, DecidableEq

/-- One run of `processSingleUrl`: its result, the final extension
state, the intermediate states after every mutation of the tracked-tab
set (the observable instants), the records POSTed to the backend, and
the tab ids opened. -/
structure SingleRun where
  result : UrlResult
  state : ExtState
  states : List ExtState
  posts : List ProfileData
  opened : List Nat

/-- The message returned after the retry loop is exhausted
(line 330: `Failed after ${CONFIG.MAX_RETRIES} attempts`). -/
def failedAfterMsg : String :=
  "Failed after " ++ toString MAX_RETRIES ++ " attempts"

/-- The retry loop of `processSingleUrl` (lines 254-332).  `fuel` is the
number of attempts left (`MAX_RETRIES - retryCount`).  Each attempt:
create a tab and track it; on page-load failure, extraction failure or a
nameless record, close the tab and retry; otherwise stamp the url, POST
to the backend, close the tab, and return the classified result. -/
def processSingleUrlGo (env : Nat → AttemptEnv) (url : String) :
    Nat → Nat → ExtState → SingleRun
  | 0, _, st =>
    ⟨{ success := false, error := some failedAfterMsg }, st, [], [], []⟩
  | fuel + 1, retryCount, st =>
    let a := env retryCount
    let st1 := { st with activeTabs := setAdd st.activeTabs a.tabId }
    let st2 := { st1 with activeTabs := setDelete st1.activeTabs a.tabId }
    let retryTail : SingleRun :=
      let rest := processSingleUrlGo env url fuel (retryCount + 1) st2
      ⟨rest.result, rest.state, st1 :: st2 :: rest.states, rest.posts, a.tabId :: rest.opened⟩
    match a.loadFailure with
    | some _ => retryTail
    | none =>
      match a.extract with
      | .threw _ => retryTail
      | .returned p =>
        if p.name = "" then retryTail
        else
          let p2 := { p with url := url }
          match a.save with
          | .notSaved err =>
            ⟨{ success := false, isDuplicate := strIncludes err "already exists",
               error := some err }, st2, [st1, st2], [p2], [a.tabId]⟩
          | .saved pid =>
            ⟨{ success := true, profile := some p2, profileId := some pid }, st2,
             [st1, st2], [p2], [a.tabId]⟩

def processSingleUrl (env : Nat → AttemptEnv) (url : String) (st : ExtState) : SingleRun :=
  processSingleUrlGo env url MAX_RETRIES 0 st

/-- An entry of `results.successful`. -/
structure SuccessEntry where
  url : String
  profile : ProfileData
  profileId : Nat
deriving Repr, DecidableEq

/-- An entry of `results.failed` or `results.skipped` (the latter also
carries the constant reason string for duplicates). -/
structure OutcomeEntry where
  url : String
  error : String
deriving Repr, DecidableEq

/-- The `results` object of `processBatchUrls` (lines 168-180); the
`startTime`/`endTime`/`processingTime` timestamps are not modelled. -/
structure BatchResults where
  successful : List SuccessEntry
  failed : List OutcomeEntry
  skipped : List OutcomeEntry
  total : Nat
  success : Nat
  errors : Nat
  duplicates : Nat
deriving Repr, DecidableEq

/-- One run of `processBatchUrls`, with the same observables as
`SingleRun`. -/
structure BatchRun where
  results : BatchResults
  state : ExtState
  states : List ExtState
  posts : List ProfileData
  opened : List Nat

/-- The classification of one `processSingleUrl` result in the batch
loop (lines 195-234): push the entry onto the matching results list,
bump the matching summary counter, and bump the matching extension-state
counter. -/
def classifyStep (url : String) (r : UrlResult) :
    (BatchResults → BatchResults) × (ExtState → ExtState) :=
  if r.success then
    (fun res => { res with
        successful := ⟨url, r.profile.getD {}, r.profileId.getD 0⟩ :: res.successful
        success := res.success + 1 },
     fun s => { s with successCount := s.successCount + 1 })
  else if r.isDuplicate then
    (fun res => { res with
        skipped := ⟨url, r.error.getD ""⟩ :: res.skipped
        duplicates := res.duplicates + 1 },
     fun s => s)
  else
    (fun res => { res with
        failed := ⟨url, r.error.getD ""⟩ :: res.failed
        errors := res.errors + 1 },
     fun s => { s with errorCount := s.errorCount + 1 })

/-- The per-URL loop of `processBatchUrls` (lines 184-246): update
`processedCount`, process the URL, classify the outcome, and continue
unless `isProcessing` was cleared. -/
def processBatchGo (benv : Nat → Nat → AttemptEnv) :
    List String → Nat → ExtState → BatchRun
  | [], _, st => ⟨⟨[], [], [], 0, 0, 0, 0⟩, st, [], [], []⟩
  | url :: rest, i, st =>
    let st0 := { st with processedCount := i + 1 }
    let run := processSingleUrl (benv i) url st0
    let step := classifyStep url run.result
    let st1 := step.2 run.state
    if st1.isProcessing then
      let tail := processBatchGo benv rest (i + 1) st1
      ⟨step.1 tail.results, tail.state, st0 :: run.states ++ tail.states,
       run.posts ++ tail.posts, run.opened ++ tail.opened⟩
    else
      ⟨step.1 ⟨[], [], [], 0, 0, 0, 0⟩, st1, st0 :: run.states, run.posts, run.opened⟩

def processBatchUrls (benv : Nat → Nat → AttemptEnv) (urls : List String)
    (st : ExtState) : BatchRun :=
  let run := processBatchGo benv urls 0 st
  { run with results := { run.results with total := urls.length } }

/-- Function `resetState` (lines 851-859): clears every field of the extension
state.  Note it clears the tracked-tab set without closing any tab. -/
def resetStateFn (st : ExtState) : ExtState :=
  { st with
    isProcessing := false
    currentBatch := []
    processedCount := 0
    successCount := 0
    errorCount := 0
    activeTabs := [] }

/-- The response `handleStartBatchProcessing` sends back. -/
structure StartResponse where
  success : Bool
  error : Option String := none
deriving Repr, DecidableEq

/-- One run of `handleStartBatchProcessing`. -/
structure StartRun where
  response : StartResponse
  state : ExtState
  states : List ExtState
  posts : List ProfileData
  opened : List Nat
  results : Option BatchResults

/-- Handler `handleStartBatchProcessing` (lines 100-165): reject when a batch is
already running or when no URL list is given; otherwise initialise the
processing state, run the batch, and reset.  `data` is `none` when
`data.urls` is missing or not an array; statistics storage and
notifications have no effect on the modelled state. -/
def handleStartBatchProcessing (benv : Nat → Nat → AttemptEnv)
    (data : Option (List String)) (st : ExtState) : StartRun :=
  if st.isProcessing then
    ⟨{ success := false, error := some "Batch processing already in progress" },
     st, [], [], [], none⟩
  else
    match data with
    | none =>
      ⟨{ success := false, error := some "No URLs provided for processing" },
       st, [], [], [], none⟩
    | some [] =>
      ⟨{ success := false, error := some "No URLs provided for processing" },
       st, [], [], [], none⟩
    | some urls =>
      let st1 := { st with
        isProcessing := true
        currentBatch := urls
        processedCount := 0
        successCount := 0
        errorCount := 0 }
      let run := processBatchUrls benv urls st1
      let st2 := resetStateFn run.state
      ⟨{ success := true }, st2, st1 :: run.states ++ [st2], run.posts,
       run.opened, some run.results⟩

/-- The global `error` listener (lines 1046-1048): its body is a single
`console.error` call — it performs no state change. -/
def onGlobalError (st : ExtState) : ExtState := st

/-- The global `unhandledrejection` listener (lines 1050-1052): likewise
only logs. -/
def onUnhandledRejection (st : ExtState) : ExtState := st

/-! ### The popup (`popup.js`) -/

/-- Constant `MIN_URLS_REQUIRED` of popup.js. -/
def MIN_URLS_REQUIRED : Nat := 3

/-- What the process-button click handler (popup.js lines 99-112)
decides to do. -/
inductive ClickAction where
  | rejectedMinUrls
  | stopRequested
  | startRequested (urls : List String)
deriving Repr, DecidableEq

/-- The process-button click handler: fewer than `MIN_URLS_REQUIRED`
URLs → warn and return (no message to the background); otherwise stop or
start depending on the `isProcessing` flag of the popup. -/
def processBtnClick (linkedinUrls : List String) (isProcessing : Bool) : ClickAction :=
  if linkedinUrls.length < MIN_URLS_REQUIRED then .rejectedMinUrls
  else if isProcessing then .stopRequested
  else .startRequested linkedinUrls

/-- The browser tabs opened as a consequence of one click on the process
button: none when the click is rejected in the popup or stops a batch;
on a start request, the tabs the background handler opens. -/
def clickOpenedTabs (benv : Nat → Nat → AttemptEnv) (st : ExtState) :
    ClickAction → List Nat
  | .rejectedMinUrls => []
  | .stopRequested => []
  | .startRequested urls => (handleStartBatchProcessing benv (some urls) st).opened

/-! ### Backend: the Profile model and `POST /profiles`
(`ProfileController.createProfile` and the Sequelize `Profile` model).
Only the fields and validations that interact with the claims are
carried; the remaining optional columns (`about`, `industry`,
`profilePicture`, `experience`, …) are independent of every claim and
are not modelled. -/

def extractionStatusEnum : List String := ["pending", "success", "failed", "partial"]

/-- A `POST /profiles` request body.  `name`/`url` use `""` for a
missing or empty value (both are falsy in the required
check); the optional fields use `none` for an absent key. -/
structure CreateBody where
  name : String := ""
  url : String := ""
  bioLine : Option String := none
  location : Option String := none
  followerCount : Option Nat := none
  connectionCount : Option Nat := none
  extractionStatus : Option String := none
deriving Repr, DecidableEq

/-- A row of the `profiles` table (modelled columns). -/
structure StoredProfile where
  id : Nat
  name : String
  url : String
  bioLine : Option String
  location : Option String
  followerCount : Nat
  connectionCount : Nat
  extractionStatus : String
deriving Repr, DecidableEq

/-- The relational store: rows in insertion order plus the
auto-increment counter for `id`. -/
structure Store where
  profiles : List StoredProfile
  nextId : Nat := 1
deriving Repr, DecidableEq

/-- Class method `Profile.findByUrl`: findOne by exact url. -/
def findByUrl (st : Store) (url : String) : Option StoredProfile :=
  st.profiles.find? (fun p => p.url = url)

/-- The `beforeValidate` hook of the Profile model: prepend `https://`
to a scheme-less LinkedIn url. -/
def normalizeUrl (url : String) : String :=
  if url ≠ "" ∧ strStartsWith url "http" = false ∧ strIncludes url "linkedin.com/in/" = true
  then "https://" ++ url
  else url

/-- The Sequelize validations of the modelled columns: `name` non-empty
with length 1-255, `url` non-empty and a LinkedIn profile url,
`bioLine`/`location` length caps, `extractionStatus` in the enum.
(Count columns are non-negative integers by the `Nat` embedding.) -/
def modelValid (name url status : String) (bioLine location : Option String) : Bool :=
  decide (name ≠ "") && decide (1 ≤ name.length ∧ name.length ≤ 255) &&
  decide (url ≠ "") && strIncludes url "linkedin.com/in/" &&
  decide (status ∈ extractionStatusEnum) &&
  decide ((bioLine.getD "").length ≤ 500) && decide ((location.getD "").length ≤ 255)

/-- What `Profile.create` can do: insert a row, raise
`SequelizeValidationError`, or raise `SequelizeUniqueConstraintError`
(the unique index on `url`). -/
inductive CreateOutcome where
  | created (p : StoredProfile) (st : Store)
  | validationError
  | uniqueConstraintError
deriving Repr

/-- Method `Profile.create`: run the `beforeValidate` hook, the model
validations, then insert, honouring the unique index on `url`.  The
pending-default of the `beforeCreate` hook only fires on a falsy status,
which the validations already rule out. -/
def profileCreate (name url status : String) (bioLine location : Option String)
    (foll conn : Nat) (st : Store) : CreateOutcome :=
  let nurl := normalizeUrl url
  let status1 := if status = "" then "pending" else status
  if modelValid name nurl status bioLine location = false then .validationError
  else if st.profiles.any (fun p => p.url = nurl) then .uniqueConstraintError
  else
    let p : StoredProfile := ⟨st.nextId, name, nurl, bioLine, location, foll, conn, status1⟩
    .created p ⟨st.profiles ++ [p], st.nextId + 1⟩

/-- The HTTP response of the create endpoint (modelled parts). -/
structure ApiResponse where
  status : Nat
  success : Bool
  message : String := ""
  existingId : Option Nat := none
  profileId : Option Nat := none
deriving Repr, DecidableEq

/-- The default applied at line 565 of the controller: the JS expression
of the form extractionStatus-or-else-success. -/
def effectiveStatus (b : CreateBody) : String :=
  match b.extractionStatus with
  | none => "success"
  | some v => if v = "" then "success" else v

/-- Controller method `ProfileController.createProfile` (lines 528-616):
required-field check (400), duplicate-url check via `findByUrl` on the
raw body url (409 with the id of the existing record), then `Profile.create`
with the or-else defaults.  A `SequelizeValidationError` from the model
maps to 400; any other error — in particular the unique-constraint
violation, whose error name differs from `SequelizeValidationError` —
falls through to the 500 response. -/
def createProfile (b : CreateBody) (st : Store) : ApiResponse × Store :=
  if b.name = "" ∨ b.url = "" then
    ({ status := 400, success := false
       message := "Missing required fields: name and url are required" }, st)
  else
    match findByUrl st b.url with
    | some existing =>
      ({ status := 409, success := false
         message := "Profile with this LinkedIn URL already exists"
         existingId := some existing.id }, st)
    | none =>
      let foll := b.followerCount.getD 0
      let conn := b.connectionCount.getD 0
      match profileCreate b.name b.url (effectiveStatus b) b.bioLine b.location foll conn st with
      | .created p st2 =>
        ({ status := 201, success := true
           message := "Profile created successfully"
           profileId := some p.id }, st2)
      | .validationError =>
        ({ status := 400, success := false, message := "Validation failed" }, st)
      | .uniqueConstraintError =>
        ({ status := 500, success := false, message := "Failed to create profile" }, st)

/-! ### Claim predicates and sample inputs -/

/-- The `extractionStatus` trichotomy of the spec, stated on a record exactly
as the spec words it: `failed` when the name could not be read, `partial`
when the name was read but neither bio line nor location was, `success`
otherwise. -/
def statusSpec (r : ProfileData) : Prop :=
  (r.name = "" → r.extractionStatus = "failed") ∧
  (r.name ≠ "" ∧ r.bioLine = "" ∧ r.location = "" → r.extractionStatus = "partial") ∧
  (r.name ≠ "" ∧ (r.bioLine ≠ "" ∨ r.location ≠ "") → r.extractionStatus = "success")

instance (r : ProfileData) : Decidable (statusSpec r) := by
  unfold statusSpec
  infer_instance

/-- A sample page for the witness: only a name is present. -/
def sampleDoc : Document where
  querySelector := fun s =>
    if s = "h1.text-heading-xlarge" then some (textElem "Jane Doe") else none
  querySelectorAll := fun _ => []

/-- Request body of the C5 counterexample: valid, but the url carries no
scheme, so the `beforeValidate` hook rewrites it on store. -/
def schemelessBody : CreateBody := { name := "Bob", url := "linkedin.com/in/bob" }

/-- A create body that supplies `extractionStatus` explicitly. -/
def pendingBody : CreateBody :=
  { name := "Pat", url := "https://linkedin.com/in/pat", extractionStatus := some "pending" }

/-- A batch environment where every URL loads and extracts fine. -/
def witnessEnv : Nat → Nat → AttemptEnv :=
  fun _ _ => ⟨5, none, .returned { name := "Jane Doe" }, .saved 1⟩

/-- C3 counterexample environment: every attempt of every URL times out
waiting for the tab to load. -/
def timeoutEnv : Nat → Nat → AttemptEnv :=
  fun _ _ => ⟨7, some "Tab loading timeout", .threw "unused", .notSaved "unused"⟩

/-! ### C6 — count sanitization -/

/-- C6: in the final sanitization step of the extractor, a connection count
strictly above 100,000 is reset to 0 (in particular 250,000), a follower
count at or below 50,000,000 is kept unchanged (in particular 500,000),
and a follower count above 50,000,000 is reset to 0. -/
theorem count_sanitization :
    (∀ p : ProfileData,
      (sanitizeCounts p).connectionCount =
        (if 100000 < p.connectionCount then 0 else p.connectionCount) ∧
      (sanitizeCounts p).followerCount =
        (if 50000000 < p.followerCount then 0 else p.followerCount)) ∧
    (sanitizeCounts { connectionCount := 250000 }).connectionCount = 0 ∧
    (sanitizeCounts { followerCount := 500000 }).followerCount = 500000 ∧
    (sanitizeCounts { followerCount := 50000001 }).followerCount = 0 := by
  refine ⟨fun p => ?_, by decide, by decide, by decide⟩
  unfold sanitizeCounts
  by_cases h1 : 100000 < p.connectionCount <;> by_cases h2 : 50000000 < p.followerCount <;>
    simp [h1, h2]

/-! ### C7 — start request while a batch is running -/

/-- C7: when `isProcessing` is set, a start request is answered with the
already-in-progress error and changes nothing: same state, no
intermediate states, no posts, no tabs opened, no results. -/
theorem start_while_running_rejected (benv : Nat → Nat → AttemptEnv)
    (data : Option (List String)) (st : ExtState) (h : st.isProcessing = true) :
    (handleStartBatchProcessing benv data st).response =
      { success := false, error := some "Batch processing already in progress" } ∧
    (handleStartBatchProcessing benv data st).state = st ∧
    (handleStartBatchProcessing benv data st).states = [] ∧
    (handleStartBatchProcessing benv data st).opened = [] ∧
    (handleStartBatchProcessing benv data st).results = none := by
  unfold handleStartBatchProcessing
  simp [h]

/-- Witness for `start_while_running_rejected` at a concrete running
state. -/
theorem start_while_running_rejected_witness :
    (⟨true, ["https://linkedin.com/in/a"], 1, 0, 0, [4]⟩ : ExtState).isProcessing = true ∧
    (handleStartBatchProcessing (fun _ _ => ⟨9, none, .threw "x", .notSaved "x"⟩)
        (some ["https://linkedin.com/in/b"])
        ⟨true, ["https://linkedin.com/in/a"], 1, 0, 0, [4]⟩).state =
      ⟨true, ["https://linkedin.com/in/a"], 1, 0, 0, [4]⟩ :=
  ⟨rfl, (start_while_running_rejected (fun _ _ => ⟨9, none, .threw "x", .notSaved "x"⟩)
    (some ["https://linkedin.com/in/b"]) ⟨true, ["https://linkedin.com/in/a"], 1, 0, 0, [4]⟩
    rfl).2.1⟩

/-! ### C8 — global error listeners -/

/-- C8 counterexample: with a batch running and a tracked tab, the
global `error` listener leaves the tracked-tab set non-empty and the job
still marked running — no full state reset happens. -/
theorem global_error_reset_cex :
    ¬ ((onGlobalError ⟨true, [], 1, 0, 0, [5]⟩).activeTabs = [] ∧
       (onGlobalError ⟨true, [], 1, 0, 0, [5]⟩).isProcessing = false) := by
  decide

/-- C8 amended: the `error` and `unhandledrejection` listeners only log
and perform no state change at all; the reset that does exist,
`resetState` (run when `handleStartBatchProcessing` finishes or catches),
empties the tracked-tab set and marks the job not-running — without
closing any tab. -/
theorem global_error_listeners_log_only (st : ExtState) :
    onGlobalError st = st ∧ onUnhandledRejection st = st ∧
    (resetStateFn st).activeTabs = [] ∧ (resetStateFn st).isProcessing = false := by
  exact ⟨rfl, rfl, rfl, rfl⟩

/-! ### C9 — the throw-path sentinel record is posted -/

/-- C9: when the extractor body throws, the returned record carries the
non-empty sentinel name, the sentinel bio line, status `failed` and the
caught message; the no-name guard of `processSingleUrl` therefore passes and
the record (with the url stamped on) is POSTed to the backend whatever
the save outcome. -/
theorem throw_sentinel_posted (m u : String) (tabId : Nat) (st : ExtState) :
    (extractLinkedInProfileAdvanced (.err m)).name = "Extraction Failed" ∧
    (extractLinkedInProfileAdvanced (.err m)).name ≠ "" ∧
    (extractLinkedInProfileAdvanced (.err m)).bioLine = "Could not extract profile data" ∧
    (extractLinkedInProfileAdvanced (.err m)).extractionStatus = "failed" ∧
    (extractLinkedInProfileAdvanced (.err m)).extractionError = some m ∧
    (∀ sv : SaveOutcome,
      (processSingleUrl (fun _ => ⟨tabId, none, .returned (extractLinkedInProfileAdvanced (.err m)), sv⟩)
          u st).posts = [{ extractLinkedInProfileAdvanced (.err m) with url := u }]) := by
  refine ⟨rfl, by simp [extractLinkedInProfileAdvanced], rfl, rfl, rfl, fun sv => ?_⟩
  cases sv <;> rfl

/-! ### C1 — the extractionStatus trichotomy -/

theorem extractName_status (doc : Document) (p : ProfileData) :
    (extractName doc p).extractionStatus = p.extractionStatus := by
  unfold extractName
  split <;> rfl

theorem extractHeadline_status (doc : Document) (p : ProfileData) :
    (extractHeadline doc p).extractionStatus = p.extractionStatus := by
  unfold extractHeadline
  split <;> rfl

theorem extractLocation_status (doc : Document) (p : ProfileData) :
    (extractLocation doc p).extractionStatus = p.extractionStatus := by
  unfold extractLocation
  split <;> rfl

theorem extractCounts_status (doc : Document) (p : ProfileData) :
    (extractCounts doc p).extractionStatus = p.extractionStatus := rfl

theorem sanitizeCounts_status (p : ProfileData) :
    (sanitizeCounts p).extractionStatus = p.extractionStatus := by
  unfold sanitizeCounts
  dsimp only
  split <;> split <;> rfl

theorem extractPicture_status (doc : Document) (p : ProfileData) :
    (extractPicture doc p).extractionStatus = p.extractionStatus := by
  unfold extractPicture
  split <;> rfl

theorem extractAbout_status (doc : Document) (p : ProfileData) :
    (extractAbout doc p).extractionStatus = p.extractionStatus := by
  unfold extractAbout
  split <;> rfl

theorem extractExperience_status (doc : Document) (p : ProfileData) :
    (extractExperience doc p).extractionStatus = p.extractionStatus := by
  unfold extractExperience
  dsimp only
  split <;> rfl

theorem extractSkills_status (doc : Document) (p : ProfileData) :
    (extractSkills doc p).extractionStatus = p.extractionStatus := by
  unfold extractSkills
  dsimp only
  split <;> rfl

/-- No extraction phase before the final status determination touches
`extractionStatus`: it still holds its initial value `"success"`. -/
theorem extractFields_status (doc : Document) :
    (extractFields doc).extractionStatus = "success" := by
  unfold extractFields
  dsimp only
  rw [extractSkills_status, extractExperience_status, extractAbout_status,
    extractPicture_status, sanitizeCounts_status, extractCounts_status,
    extractLocation_status, extractHeadline_status, extractName_status]

/-- The status determination establishes the trichotomy on any record
whose status was still the initial `"success"`. -/
theorem finalizeStatus_spec (p : ProfileData) (h : p.extractionStatus = "success") :
    statusSpec (finalizeStatus p) := by
  unfold finalizeStatus statusSpec
  by_cases h1 : p.name = ""
  · simp [h1]
  · by_cases hb : p.bioLine = "" <;> by_cases hl : p.location = "" <;>
      simp [h1, hb, hl, h]

/-- C1 counterexample: the record returned on the exception path
violates the trichotomy — its name and bio line are the non-empty
sentinels, so the trichotomy demands `success`, but the record carries
`failed`. -/
theorem status_trichotomy_cex :
    ¬ statusSpec (extractLinkedInProfileAdvanced (.err "selector crashed")) := by
  decide

/-- C1 amended: every record produced by the extractor body (the
non-exception path) satisfies the trichotomy; on the exception path the
returned sentinel record instead always carries `extractionStatus =
"failed"` — despite its non-empty name — and so falls outside the
trichotomy. -/
theorem status_trichotomy (doc : Document) (m : String) :
    statusSpec (extractAll doc) ∧
    (extractLinkedInProfileAdvanced (.err m)).extractionStatus = "failed" ∧
    ¬ statusSpec (extractLinkedInProfileAdvanced (.err m)) := by
  refine ⟨finalizeStatus_spec _ (extractFields_status doc), rfl, fun hs => ?_⟩
  have h1 : (extractLinkedInProfileAdvanced (.err m)).name ≠ "" := by
    show ("Extraction Failed" : String) ≠ ""
    decide
  have h2 : (extractLinkedInProfileAdvanced (.err m)).bioLine ≠ "" := by
    show ("Could not extract profile data" : String) ≠ ""
    decide
  have h3 := hs.2.2 ⟨h1, Or.inl h2⟩
  have h4 : (extractLinkedInProfileAdvanced (.err m)).extractionStatus = "failed" := rfl
  rw [h4] at h3
  exact absurd h3 (by decide)

/-- Witness for `status_trichotomy` at a concrete page and message. -/
theorem status_trichotomy_witness :
    statusSpec (extractAll sampleDoc) ∧
    (extractLinkedInProfileAdvanced (.err "boom")).extractionStatus = "failed" :=
  ⟨(status_trichotomy sampleDoc "boom").1, (status_trichotomy sampleDoc "boom").2.1⟩

/-! ### C4 — minimum batch size -/

/-- C4: a process-button click with fewer than `MIN_URLS_REQUIRED` (3)
URLs is rejected in the popup — no start message reaches the background,
so no browser tab is opened. -/
theorem min_urls_click_rejected (urls : List String) (benv : Nat → Nat → AttemptEnv)
    (st : ExtState) (h : urls.length < MIN_URLS_REQUIRED) :
    processBtnClick urls false = .rejectedMinUrls ∧
    clickOpenedTabs benv st (processBtnClick urls false) = [] := by
  simp [processBtnClick, clickOpenedTabs, if_pos h]

/-- Witness for `min_urls_click_rejected` with a two-URL queue. -/
theorem min_urls_click_rejected_witness :
    (["https://linkedin.com/in/a", "https://linkedin.com/in/b"] : List String).length <
      MIN_URLS_REQUIRED ∧
    clickOpenedTabs (fun _ _ => ⟨9, none, .threw "x", .notSaved "x"⟩) {}
      (processBtnClick ["https://linkedin.com/in/a", "https://linkedin.com/in/b"] false) = [] :=
  ⟨by decide,
   (min_urls_click_rejected ["https://linkedin.com/in/a", "https://linkedin.com/in/b"]
     (fun _ _ => ⟨9, none, .threw "x", .notSaved "x"⟩) {} (by decide)).2⟩

/-! ### C5 / C10 — POST /profiles -/

/-- A status accepted by the model validation is never the empty
string. -/
theorem status_ne_of_valid (name nurl status : String) (bioLine location : Option String)
    (hvalid : modelValid name nurl status bioLine location = true) : status ≠ "" := by
  intro h0
  rw [h0] at hvalid
  unfold modelValid at hvalid
  simp [extractionStatusEnum] at hvalid

/-- A create on a body that passes validation, whose raw url is not yet
stored and whose normalized url does not collide with a stored row,
returns 201 and appends exactly the expected row. -/
theorem createProfile_fresh (b : CreateBody) (st : Store)
    (hname : b.name ≠ "") (hurl : b.url ≠ "")
    (hvalid : modelValid b.name (normalizeUrl b.url) (effectiveStatus b) b.bioLine b.location
      = true)
    (hfresh : findByUrl st b.url = none)
    (hany : st.profiles.any (fun p => p.url = normalizeUrl b.url) = false) :
    createProfile b st =
      ({ status := 201, success := true, message := "Profile created successfully"
         profileId := some st.nextId },
       ⟨st.profiles ++ [⟨st.nextId, b.name, normalizeUrl b.url, b.bioLine, b.location,
          b.followerCount.getD 0, b.connectionCount.getD 0, effectiveStatus b⟩],
        st.nextId + 1⟩) := by
  have hne := status_ne_of_valid _ _ _ _ _ hvalid
  unfold createProfile profileCreate
  rw [if_neg (by push_neg; exact ⟨hname, hurl⟩), hfresh]
  simp only [hvalid, hany, Bool.true_eq_false, Bool.false_eq_true, if_false, if_neg hne]

/-- C5 counterexample: submitting the same (valid, scheme-less) url
twice yields one 201 but no 409 — the second request 500s on the unique
index, because the stored url was normalized to `https://…` and the
duplicate check compares the raw body url.  (Still only one row is
stored.) -/
theorem post_idempotence_cex :
    (createProfile schemelessBody ⟨[], 1⟩).1.status = 201 ∧
    (createProfile schemelessBody (createProfile schemelessBody ⟨[], 1⟩).2).1.status = 500 ∧
    ¬ (createProfile schemelessBody (createProfile schemelessBody ⟨[], 1⟩).2).1.status = 409 ∧
    (createProfile schemelessBody (createProfile schemelessBody ⟨[], 1⟩).2).2.profiles.length
      = 1 := by
  decide

/-- C5 amended: for a url that starts with `http` (so that the
normalization hook is the identity), submitting the same valid url twice
against a store not containing it yields exactly one 201 and one 409,
the 409 response carries the id of the existing record, the store is
unchanged by the duplicate request, and exactly one row with that url is
stored. -/
theorem post_idempotence (b : CreateBody) (st : Store)
    (hname : b.name ≠ "")
    (hhttp : strStartsWith b.url "http" = true)
    (hvalid : modelValid b.name b.url (effectiveStatus b) b.bioLine b.location = true)
    (hfresh : findByUrl st b.url = none) :
    (createProfile b st).1.status = 201 ∧
    (createProfile b (createProfile b st).2).1.status = 409 ∧
    (createProfile b (createProfile b st).2).1.existingId = some st.nextId ∧
    (createProfile b (createProfile b st).2).2 = (createProfile b st).2 ∧
    ((createProfile b st).2.profiles.filter (fun p => p.url = b.url)).length = 1 := by
  have hurl : b.url ≠ "" := by
    intro h0
    rw [h0] at hhttp
    exact absurd hhttp (by decide)
  have hnorm : normalizeUrl b.url = b.url := by
    unfold normalizeUrl
    rw [if_neg]
    intro hc
    rw [hhttp] at hc
    exact absurd hc.2.1 (by decide)
  have hany : st.profiles.any (fun p => p.url = normalizeUrl b.url) = false := by
    rw [hnorm, List.any_eq_false]
    intro x hx
    have hnot := List.find?_eq_none.mp hfresh x hx
    simpa using hnot
  have hc1 := createProfile_fresh b st hname hurl (by rw [hnorm]; exact hvalid) hfresh hany
  rw [hnorm] at hc1
  have hfind2 : findByUrl
      ⟨st.profiles ++ [⟨st.nextId, b.name, b.url, b.bioLine, b.location,
        b.followerCount.getD 0, b.connectionCount.getD 0, effectiveStatus b⟩],
       st.nextId + 1⟩ b.url =
      some ⟨st.nextId, b.name, b.url, b.bioLine, b.location,
        b.followerCount.getD 0, b.connectionCount.getD 0, effectiveStatus b⟩ := by
    unfold findByUrl at hfresh ⊢
    rw [List.find?_append, hfresh]
    simp [List.find?]
  have hflt : (st.profiles.filter (fun p => p.url = b.url)) = [] := by
    rw [List.filter_eq_nil_iff]
    intro x hx
    have hnot := List.find?_eq_none.mp hfresh x hx
    simpa using hnot
  refine ⟨by rw [hc1], ?_, ?_, ?_, ?_⟩
  · rw [hc1]
    unfold createProfile
    rw [if_neg (by push_neg; exact ⟨hname, hurl⟩), hfind2]
  · rw [hc1]
    unfold createProfile
    rw [if_neg (by push_neg; exact ⟨hname, hurl⟩), hfind2]
  · rw [hc1]
    unfold createProfile
    rw [if_neg (by push_neg; exact ⟨hname, hurl⟩), hfind2]
  · rw [hc1]
    simp [List.filter_append, hflt]

/-- Witness for `post_idempotence` at a concrete body and empty store. -/
theorem post_idempotence_witness :
    (({ name := "Alice", url := "https://linkedin.com/in/alice" } : CreateBody).name ≠ "" ∧
     strStartsWith "https://linkedin.com/in/alice" "http" = true ∧
     findByUrl ⟨[], 1⟩ "https://linkedin.com/in/alice" = none) ∧
    (createProfile { name := "Alice", url := "https://linkedin.com/in/alice" } ⟨[], 1⟩).1.status
      = 201 ∧
    (createProfile { name := "Alice", url := "https://linkedin.com/in/alice" }
      (createProfile { name := "Alice", url := "https://linkedin.com/in/alice" } ⟨[], 1⟩).2).1.status
      = 409 :=
  ⟨⟨by decide, by decide, by decide⟩,
   (post_idempotence { name := "Alice", url := "https://linkedin.com/in/alice" } ⟨[], 1⟩
     (by decide) (by decide) (by decide) (by decide)).1,
   (post_idempotence { name := "Alice", url := "https://linkedin.com/in/alice" } ⟨[], 1⟩
     (by decide) (by decide) (by decide) (by decide)).2.1⟩

/-- C10: a validated create that omits `extractionStatus` stores
`"success"`; one that supplies any of the four allowed values stores
that value verbatim.  In both cases the status of the stored row is
`effectiveStatus b`. -/
theorem create_status_defaulting (b : CreateBody) (st : Store)
    (hname : b.name ≠ "") (hurl : b.url ≠ "")
    (hvalid : modelValid b.name (normalizeUrl b.url) (effectiveStatus b) b.bioLine b.location
      = true)
    (hfresh : findByUrl st b.url = none)
    (hany : st.profiles.any (fun p => p.url = normalizeUrl b.url) = false) :
    (createProfile b st).1.status = 201 ∧
    (createProfile b st).2.profiles.map StoredProfile.extractionStatus =
      st.profiles.map StoredProfile.extractionStatus ++ [effectiveStatus b] ∧
    (b.extractionStatus = none → effectiveStatus b = "success") ∧
    (∀ v, b.extractionStatus = some v → v ∈ extractionStatusEnum → effectiveStatus b = v) := by
  have hc1 := createProfile_fresh b st hname hurl hvalid hfresh hany
  refine ⟨by rw [hc1], by rw [hc1]; simp, fun h0 => by simp [effectiveStatus, h0],
    fun v hv hmem => ?_⟩
  have hvne : v ≠ "" := by
    intro h0
    rw [h0] at hmem
    simp [extractionStatusEnum] at hmem
  simp [effectiveStatus, hv, hvne]

/-- Witness for `create_status_defaulting`: one call omitting the status
(stored as `success`) — the verbatim clause instantiated at
`"pending"`. -/
theorem create_status_defaulting_witness :
    (createProfile { name := "Alice", url := "https://linkedin.com/in/alice" } ⟨[], 1⟩).1.status
      = 201 ∧
    (createProfile { name := "Alice", url := "https://linkedin.com/in/alice" }
        ⟨[], 1⟩).2.profiles.map StoredProfile.extractionStatus = ["success"] ∧
    (createProfile pendingBody ⟨[], 1⟩).2.profiles.map
      StoredProfile.extractionStatus = ["pending"] := by
  have h1 := create_status_defaulting { name := "Alice", url := "https://linkedin.com/in/alice" }
    ⟨[], 1⟩ (by decide) (by decide) (by decide) (by decide) (by decide)
  have h2 := create_status_defaulting pendingBody ⟨[], 1⟩
    (by decide) (by decide) (by decide) (by decide) (by decide)
  refine ⟨h1.1, ?_, ?_⟩
  · have := h1.2.1
    simpa using this
  · have := h2.2.1
    simpa using this

/-! ### C2 — at most one tracked tab -/

/-- One `processSingleUrl` run started with no tracked tab keeps the
tracked set at size ≤ 1 at every instant and ends with it empty. -/
theorem processSingleUrlGo_tabs (env : Nat → AttemptEnv) (url : String) (fuel : Nat) :
    ∀ (rc : Nat) (st : ExtState), st.activeTabs = [] →
      (processSingleUrlGo env url fuel rc st).state.activeTabs = [] ∧
      ∀ s ∈ (processSingleUrlGo env url fuel rc st).states, s.activeTabs.length ≤ 1 := by
  induction fuel with
  | zero =>
    intro rc st h
    refine ⟨by simpa [processSingleUrlGo] using h, fun s hs => ?_⟩
    simp [processSingleUrlGo] at hs
  | succ n ih =>
    intro rc st h
    have h1 : setAdd st.activeTabs (env rc).tabId = [(env rc).tabId] := by
      simp [setAdd, h]
    have h2 : setDelete (setAdd st.activeTabs (env rc).tabId) (env rc).tabId = [] := by
      rw [h1]
      simp [setDelete]
    unfold processSingleUrlGo
    dsimp only
    cases hl : (env rc).loadFailure with
    | some m =>
      dsimp only
      obtain ⟨ihf, ihs⟩ := ih (rc + 1) { st with activeTabs := setDelete (setAdd st.activeTabs (env rc).tabId) (env rc).tabId } h2
      refine ⟨ihf, fun s hs => ?_⟩
      simp only [List.mem_cons] at hs
      rcases hs with rfl | rfl | hs
      · simp [h1]
      · simp [h2]
      · exact ihs s hs
    | none =>
      dsimp only
      cases he : (env rc).extract with
      | threw m =>
        dsimp only
        obtain ⟨ihf, ihs⟩ := ih (rc + 1) { st with activeTabs := setDelete (setAdd st.activeTabs (env rc).tabId) (env rc).tabId } h2
        refine ⟨ihf, fun s hs => ?_⟩
        simp only [List.mem_cons] at hs
        rcases hs with rfl | rfl | hs
        · simp [h1]
        · simp [h2]
        · exact ihs s hs
      | returned p =>
        dsimp only
        by_cases hn : p.name = ""
        · rw [if_pos hn]
          obtain ⟨ihf, ihs⟩ := ih (rc + 1) { st with activeTabs := setDelete (setAdd st.activeTabs (env rc).tabId) (env rc).tabId } h2
          refine ⟨ihf, fun s hs => ?_⟩
          simp only [List.mem_cons] at hs
          rcases hs with rfl | rfl | hs
          · simp [h1]
          · simp [h2]
          · exact ihs s hs
        · rw [if_neg hn]
          cases hsv : (env rc).save with
          | notSaved e =>
            refine ⟨h2, fun s hs => ?_⟩
            simp only [List.mem_cons] at hs
            rcases hs with rfl | rfl | hs
            · simp [h1]
            · simp [h2]
            · simp at hs
          | saved pid =>
            refine ⟨h2, fun s hs => ?_⟩
            simp only [List.mem_cons] at hs
            rcases hs with rfl | rfl | hs
            · simp [h1]
            · simp [h2]
            · simp at hs

/-- The classification step changes neither the tracked-tab set nor the
processing flag. -/
theorem classifyStep_state (url : String) (r : UrlResult) (s : ExtState) :
    ((classifyStep url r).2 s).activeTabs = s.activeTabs ∧
    ((classifyStep url r).2 s).isProcessing = s.isProcessing := by
  unfold classifyStep
  by_cases h1 : r.success
  · rw [if_pos h1]
    exact ⟨rfl, rfl⟩
  · rw [if_neg h1]
    by_cases h2 : r.isDuplicate
    · rw [if_pos h2]
      exact ⟨rfl, rfl⟩
    · rw [if_neg h2]
      exact ⟨rfl, rfl⟩

theorem batchGo_tabs_aux (benv : Nat → Nat → AttemptEnv) (urls : List String) :
    ∀ (i : Nat) (st : ExtState), st.activeTabs = [] →
      (processBatchGo benv urls i st).state.activeTabs = [] ∧
      ∀ s ∈ (processBatchGo benv urls i st).states, s.activeTabs.length ≤ 1 := by
  induction urls with
  | nil =>
    intro i st h
    refine ⟨by simpa [processBatchGo] using h, fun s hs => ?_⟩
    simp [processBatchGo] at hs
  | cons u rest ih =>
    intro i st h
    have h0 : ({ st with processedCount := i + 1 } : ExtState).activeTabs = [] := h
    obtain ⟨hfin, hall⟩ := processSingleUrlGo_tabs (benv i) u MAX_RETRIES 0 { st with processedCount := i + 1 } h0
    have hst1 : ((classifyStep u (processSingleUrl (benv i) u { st with processedCount := i + 1 }).result).2 (processSingleUrl (benv i) u { st with processedCount := i + 1 }).state).activeTabs = [] := by
      rw [(classifyStep_state u _ _).1]
      exact hfin
    unfold processBatchGo
    dsimp only
    split
    · obtain ⟨ihf, ihs⟩ := ih (i + 1) _ hst1
      refine ⟨ihf, fun s hs => ?_⟩
      simp only [List.mem_cons, List.mem_append] at hs
      rcases hs with (rfl | hs) | hs
      · simp [h]
      · exact hall s hs
      · exact ihs s hs
    · refine ⟨hst1, fun s hs => ?_⟩
      simp only [List.mem_cons] at hs
      rcases hs with rfl | hs
      · simp [h]
      · exact hall s hs

/-- C2: during a batch run started with no tracked tab, the tracked
open-tab set has size at most 1 at every instant, and it is empty again
when the batch loop finishes. -/
theorem batch_tracked_tabs_le_one (benv : Nat → Nat → AttemptEnv) (urls : List String)
    (st : ExtState) (h : st.activeTabs = []) :
    (∀ s ∈ (processBatchUrls benv urls st).states, s.activeTabs.length ≤ 1) ∧
    (processBatchUrls benv urls st).state.activeTabs = [] := by
  obtain ⟨h1, h2⟩ := batchGo_tabs_aux benv urls 0 st h
  exact ⟨fun s hs => h2 s (by simpa [processBatchUrls] using hs),
    by simpa [processBatchUrls] using h1⟩

/-- Witness for `batch_tracked_tabs_le_one` on a concrete three-URL
batch from the empty state. -/
theorem batch_tracked_tabs_le_one_witness :
    (({} : ExtState).activeTabs = []) ∧
    ((∀ s ∈ (processBatchUrls witnessEnv
        ["https://linkedin.com/in/a", "https://linkedin.com/in/b", "https://linkedin.com/in/c"]
        {}).states, s.activeTabs.length ≤ 1) ∧
     (processBatchUrls witnessEnv
        ["https://linkedin.com/in/a", "https://linkedin.com/in/b", "https://linkedin.com/in/c"]
        {}).state.activeTabs = []) :=
  ⟨rfl, batch_tracked_tabs_le_one witnessEnv
    ["https://linkedin.com/in/a", "https://linkedin.com/in/b", "https://linkedin.com/in/c"]
    {} rfl⟩

/-! ### C3 — outcome of exhausting all retries -/

/-- When the page load of every attempt fails, the retry loop runs out and
`processSingleUrl` resolves with the fixed failed-after message — not
the failure message of the last attempt — and posts nothing. -/
theorem processSingleUrlGo_allfail (env : Nat → AttemptEnv) (url : String) (fuel : Nat) :
    ∀ (rc : Nat) (st : ExtState), (∀ k, ((env k).loadFailure).isSome = true) →
      (processSingleUrlGo env url fuel rc st).result =
        { success := false, error := some failedAfterMsg } ∧
      (processSingleUrlGo env url fuel rc st).posts = [] := by
  induction fuel with
  | zero =>
    intro rc st hf
    exact ⟨rfl, rfl⟩
  | succ n ih =>
    intro rc st hf
    unfold processSingleUrlGo
    dsimp only
    cases hl : (env rc).loadFailure with
    | some m =>
      dsimp only
      exact ih (rc + 1) _ hf
    | none =>
      have hk := hf rc
      rw [hl] at hk
      simp at hk

/-- Function `processSingleUrl` never changes the processing flag. -/
theorem processSingleUrlGo_proc (env : Nat → AttemptEnv) (url : String) (fuel : Nat) :
    ∀ (rc : Nat) (st : ExtState),
      (processSingleUrlGo env url fuel rc st).state.isProcessing = st.isProcessing := by
  induction fuel with
  | zero => intro rc st; rfl
  | succ n ih =>
    intro rc st
    unfold processSingleUrlGo
    dsimp only
    cases hl : (env rc).loadFailure with
    | some m =>
      dsimp only
      exact ih (rc + 1) _
    | none =>
      dsimp only
      cases he : (env rc).extract with
      | threw m =>
        dsimp only
        exact ih (rc + 1) _
      | returned p =>
        dsimp only
        by_cases hn : p.name = ""
        · rw [if_pos hn]
          exact ih (rc + 1) _
        · rw [if_neg hn]
          cases hsv : (env rc).save with
          | notSaved e => rfl
          | saved pid => rfl

/-- Wrapper form: `processSingleUrl` never changes the processing flag. -/
theorem processSingleUrl_proc (env : Nat → AttemptEnv) (url : String) (st : ExtState) :
    (processSingleUrl env url st).state.isProcessing = st.isProcessing :=
  processSingleUrlGo_proc env url MAX_RETRIES 0 st

/-- The classification step either leaves the failed list alone or
prepends the entry for the current url. -/
theorem classifyStep_failed (url : String) (r : UrlResult) (res : BatchResults) :
    ((classifyStep url r).1 res).failed = res.failed ∨
    ((classifyStep url r).1 res).failed = ⟨url, r.error.getD ""⟩ :: res.failed := by
  unfold classifyStep
  by_cases h1 : r.success
  · rw [if_pos h1]
    exact Or.inl rfl
  · rw [if_neg h1]
    by_cases h2 : r.isDuplicate
    · rw [if_pos h2]
      exact Or.inl rfl
    · rw [if_neg h2]
      exact Or.inr rfl

/-- On a failed, non-duplicate result the classification prepends the
error entry for the url. -/
theorem classifyStep_failed_cons (url : String) (r : UrlResult) (res : BatchResults)
    (h1 : r.success = false) (h2 : r.isDuplicate = false) :
    ((classifyStep url r).1 res).failed = ⟨url, r.error.getD ""⟩ :: res.failed := by
  unfold classifyStep
  rw [if_neg (by simp [h1]), if_neg (by simp [h2])]

/-- Every entry of the failed list of a batch is for one of the input
urls. -/
theorem batchGo_failed_urls (benv : Nat → Nat → AttemptEnv) (urls : List String) :
    ∀ (i : Nat) (st : ExtState),
      ∀ e ∈ (processBatchGo benv urls i st).results.failed, e.url ∈ urls := by
  induction urls with
  | nil =>
    intro i st e he
    simp [processBatchGo] at he
  | cons u rest ih =>
    intro i st e he
    unfold processBatchGo at he
    dsimp only at he
    split at he
    · rcases classifyStep_failed u (processSingleUrl (benv i) u { st with processedCount := i + 1 }).result (processBatchGo benv rest (i + 1) _).results with hc | hc
      all_goals rw [hc] at he
      · exact List.mem_cons_of_mem u (ih (i + 1) _ e he)
      · rcases List.mem_cons.mp he with rfl | he2
        · exact List.mem_cons_self u rest
        · exact List.mem_cons_of_mem u (ih (i + 1) _ e he2)
    · rcases classifyStep_failed u (processSingleUrl (benv i) u { st with processedCount := i + 1 }).result ⟨[], [], [], 0, 0, 0, 0⟩ with hc | hc
      all_goals rw [hc] at he
      · simp at he
      · rcases List.mem_cons.mp he with rfl | he2
        · exact List.mem_cons_self u rest
        · simp at he2

/-- Exhausting the retries on the URL at position `pre.length` puts
exactly one error entry for that URL in the failed list, carrying the
fixed failed-after message. -/
theorem retry_exhaustion_aux (benv : Nat → Nat → AttemptEnv) (u : String) (suf : List String)
    (hsuf : u ∉ suf) :
    ∀ (pre : List String) (i : Nat) (st : ExtState), st.isProcessing = true → u ∉ pre →
      (∀ k, ((benv (i + pre.length) k).loadFailure).isSome = true) →
      (processBatchGo benv (pre ++ u :: suf) i st).results.failed.filter
        (fun e => e.url = u) = [⟨u, failedAfterMsg⟩] := by
  intro pre
  induction pre with
  | nil =>
    intro i st hproc hpre hfail
    have hfail0 : ∀ k, ((benv i k).loadFailure).isSome = true := by simpa using hfail
    have hres : (processSingleUrl (benv i) u { st with processedCount := i + 1 }).result =
        { success := false, error := some failedAfterMsg } :=
      (processSingleUrlGo_allfail (benv i) u MAX_RETRIES 0
        { st with processedCount := i + 1 } hfail0).1
    simp only [List.nil_append]
    unfold processBatchGo
    dsimp only
    have hs1 : ((classifyStep u (processSingleUrl (benv i) u
        { st with processedCount := i + 1 }).result).2 (processSingleUrl (benv i) u
        { st with processedCount := i + 1 }).state).isProcessing = true := by
      rw [(classifyStep_state u _ _).2]
      rw [processSingleUrl_proc]
      exact hproc
    rw [if_pos hs1]
    dsimp only
    rw [classifyStep_failed_cons u _ _ (by rw [hres]) (by rw [hres])]
    have herr : (processSingleUrl (benv i) u
        { st with processedCount := i + 1 }).result.error.getD "" = failedAfterMsg := by
      rw [hres]
      rfl
    rw [herr]
    rw [List.filter_cons_of_pos (by simp)]
    have htail : (processBatchGo benv suf (i + 1)
        ((classifyStep u (processSingleUrl (benv i) u
          { st with processedCount := i + 1 }).result).2 (processSingleUrl (benv i) u
          { st with processedCount := i + 1 }).state)).results.failed.filter
        (fun e => e.url = u) = [] := by
      rw [List.filter_eq_nil_iff]
      intro e he
      have hmem := batchGo_failed_urls benv suf (i + 1) _ e he
      simp only [decide_eq_true_eq]
      intro h0
      rw [h0] at hmem
      exact hsuf hmem
    rw [htail]
  | cons p pre ih =>
    intro i st hproc hpre hfail
    have hpu : p ≠ u := by
      intro h0
      exact hpre (by rw [h0]; exact List.mem_cons_self u pre)
    have hpre2 : u ∉ pre := fun h0 => hpre (List.mem_cons_of_mem p h0)
    have hfail2 : ∀ k, ((benv ((i + 1) + pre.length) k).loadFailure).isSome = true := by
      intro k
      have := hfail k
      rwa [show i + (p :: pre).length = (i + 1) + pre.length from by simp; omega] at this
    simp only [List.cons_append]
    unfold processBatchGo
    dsimp only
    have hs1 : ((classifyStep p (processSingleUrl (benv i) p
        { st with processedCount := i + 1 }).result).2 (processSingleUrl (benv i) p
        { st with processedCount := i + 1 }).state).isProcessing = true := by
      rw [(classifyStep_state p _ _).2]
      rw [processSingleUrl_proc]
      exact hproc
    rw [if_pos hs1]
    dsimp only
    have hihs := ih (i + 1) _ hs1 hpre2 hfail2
    rcases classifyStep_failed p (processSingleUrl (benv i) p
        { st with processedCount := i + 1 }).result
        (processBatchGo benv (pre ++ u :: suf) (i + 1)
          ((classifyStep p (processSingleUrl (benv i) p
            { st with processedCount := i + 1 }).result).2 (processSingleUrl (benv i) p
            { st with processedCount := i + 1 }).state)).results with hc | hc
    · rw [hc]
      exact hihs
    · rw [hc]
      rw [List.filter_cons_of_neg (by simp [hpu])]
      exact hihs

/-- C3 counterexample: a URL that times out on every attempt is recorded
with the fixed message `Failed after 2 attempts`, not with the last
TabTimeout-derived message `Tab loading timeout` of the last failure. -/
theorem retry_error_message_cex :
    (processBatchUrls timeoutEnv ["https://linkedin.com/in/a"]
        { isProcessing := true }).results.failed =
      [⟨"https://linkedin.com/in/a", "Failed after 2 attempts"⟩] ∧
    ¬ (processBatchUrls timeoutEnv ["https://linkedin.com/in/a"]
        { isProcessing := true }).results.failed =
      [⟨"https://linkedin.com/in/a", "Tab loading timeout"⟩] := by
  decide

/-- C3 amended: a URL all of whose attempts fail (here: the page never
reaches `complete`) gets exactly one Error outcome in the batch, whose
message is the fixed retry-exhaustion string `Failed after 2 attempts`
(the message of the last failure is not propagated), and the batch ends with
no tracked tab. -/
theorem retry_exhaustion (benv : Nat → Nat → AttemptEnv) (pre suf : List String) (u : String)
    (st : ExtState) (hproc : st.isProcessing = true) (htabs : st.activeTabs = [])
    (hpre : u ∉ pre) (hsuf : u ∉ suf)
    (hfail : ∀ k, ((benv pre.length k).loadFailure).isSome = true) :
    (processBatchUrls benv (pre ++ u :: suf) st).results.failed.filter
        (fun e => e.url = u) = [⟨u, failedAfterMsg⟩] ∧
    (processBatchUrls benv (pre ++ u :: suf) st).state.activeTabs = [] := by
  constructor
  · have := retry_exhaustion_aux benv u suf hsuf pre 0 st hproc hpre (by simpa using hfail)
    simpa [processBatchUrls] using this
  · exact (batch_tracked_tabs_le_one benv _ st htabs).2

/-- Witness for `retry_exhaustion`: the middle URL of a concrete batch
where every load times out. -/
theorem retry_exhaustion_witness :
    (processBatchUrls timeoutEnv
        (["https://linkedin.com/in/a"] ++ "https://linkedin.com/in/b" :: ["https://linkedin.com/in/c"])
        { isProcessing := true }).results.failed.filter
      (fun e => e.url = "https://linkedin.com/in/b") =
      [⟨"https://linkedin.com/in/b", failedAfterMsg⟩] ∧
    (processBatchUrls timeoutEnv
        (["https://linkedin.com/in/a"] ++ "https://linkedin.com/in/b" :: ["https://linkedin.com/in/c"])
        { isProcessing := true }).state.activeTabs = [] :=
  retry_exhaustion timeoutEnv ["https://linkedin.com/in/a"] ["https://linkedin.com/in/c"]
    "https://linkedin.com/in/b" { isProcessing := true } rfl rfl (by decide) (by decide)
    (fun _ => rfl)

end Scraper
